import Mathlib

/-!
Verification of the homework-status polling bot (`homework.py`, `exceptions.py`).

The development shallowly embeds the Python source: JSON-like values are the
inductive `Value`, Python exceptions are the inductive `Exc`, fallible Python
operations return `Except Exc _`, and the side effects of the poll loop
(network fetches, Telegram sends, log records) are collected in a `List Event`.
The poll loop body (`main`, lines 132-153 of `homework.py`) becomes the pure
state-transition function `cycle`; iterating it over a list of network
outcomes is `runCycles`.
-/

/-- A Python/JSON value as produced by `response.json()`. -/
inductive Value where
  | vnull
  | vbool (b : Bool)
  | vint (n : Int)
  | vstr (s : String)
  | vlist (items : List Value)
  | vdict (fields : List (String × Value))

/-- The Python exceptions that the source can raise: built-ins plus the two
classes of `exceptions.py` (`EnvironmentVariableDoesNotExist`, `EndpointDisable`)
and `requests.JSONDecodeError`. -/
inductive Exc where
  | typeError (msg : String)
  | keyError (key : String)
  | indexError (msg : String)
  | attributeError (msg : String)
  | endpointDisable (msg : String)
  | jsonDecodeError (msg : String)
  | envVarError (msg : String)
deriving DecidableEq

/-- Python `repr` of a string: quoted with `'`, or with `"` when the string
contains a single quote and no double quote (escape handling elided — none of
the program's strings contain backslashes). -/
def pyReprStr (s : String) : String :=
  if s.contains '\x27' && !(s.contains '\x22') then "\x22" ++ s ++ "\x22"
  else "\x27" ++ s ++ "\x27"

mutual
/-- Python `repr` of a `Value` (used for elements inside lists and dicts). -/
def pyRepr : Value → String
  | .vnull => "None"
  | .vbool b => if b then "True" else "False"
  | .vint n => toString n
  | .vstr s => pyReprStr s
  | .vlist items => "[" ++ String.intercalate ", " (pyReprList items) ++ "]"
  | .vdict fields => "\x7b" ++ String.intercalate ", " (pyReprPairs fields) ++ "\x7d"

def pyReprList : List Value → List String
  | [] => []
  | v :: vs => pyRepr v :: pyReprList vs

def pyReprPairs : List (String × Value) → List String
  | [] => []
  | (k, v) :: kvs => (pyReprStr k ++ ": " ++ pyRepr v) :: pyReprPairs kvs
end

/-- Python `str` of a `Value`, as used by f-string interpolation. -/
def pyStr : Value → String
  | .vstr s => s
  | v => pyRepr v

/-- Python `str` of an exception, as used by `f"...{error}..."`: for `KeyError`
this is the `repr` of its argument, for the others the plain message. -/
def excStr : Exc → String
  | .typeError m => m
  | .keyError k => pyReprStr k
  | .indexError m => m
  | .attributeError m => m
  | .endpointDisable m => m
  | .jsonDecodeError m => m
  | .envVarError m => m

/-- First-match lookup in a Python dict (well-formed dicts have unique keys). -/
def dictLookup : List (String × Value) → String → Option Value
  | [], _ => none
  | (k, v) :: rest, key => if k = key then some v else dictLookup rest key

/-- Python subscript `v[key]` with a string key: succeeds only on dicts that
contain the key; raises `KeyError(key)` on dicts without it and `TypeError`
on every non-dict. -/
def pyIndex (v : Value) (key : String) : Except Exc Value :=
  match v with
  | .vdict kvs =>
    match dictLookup kvs key with
    | some x => .ok x
    | none => .error (.keyError key)
  | .vlist _ => .error (.typeError "list indices must be integers or slices, not str")
  | .vstr _ => .error (.typeError "string indices must be integers")
  | .vint _ => .error (.typeError "'int' object is not subscriptable")
  | .vbool _ => .error (.typeError "'bool' object is not subscriptable")
  | .vnull => .error (.typeError "'NoneType' object is not subscriptable")

/-- Python subscript `v[i]` with an integer index (only `homeworks[0]` occurs). -/
def pyIndexNat (v : Value) (i : Nat) : Except Exc Value :=
  match v with
  | .vlist items =>
    match items.get? i with
    | some x => .ok x
    | none => .error (.indexError "list index out of range")
  | .vdict _ => .error (.keyError (toString i))
  | .vstr _ => .error (.typeError "string index kind not modelled")
  | .vint _ => .error (.typeError "'int' object is not subscriptable")
  | .vbool _ => .error (.typeError "'bool' object is not subscriptable")
  | .vnull => .error (.typeError "'NoneType' object is not subscriptable")

/-- Python `v.get(key)`: `None` default on dicts, `AttributeError` on non-dicts. -/
def pyGet (v : Value) (key : String) : Except Exc Value :=
  match v with
  | .vdict kvs =>
    .ok (match dictLookup kvs key with
         | some x => x
         | none => .vnull)
  | _ => .error (.attributeError "object has no attribute 'get'")

/-- Does the character list `l` start with `pat`? -/
def charsStartWith : List Char → List Char → Bool
  | [], _ => true
  | _ :: _, [] => false
  | p :: ps, c :: cs => p = c && charsStartWith ps cs

/-- Substring containment on character lists (Python `key in someString`). -/
def charsContain (pat : List Char) : List Char → Bool
  | [] => pat.isEmpty
  | c :: cs => charsStartWith pat (c :: cs) || charsContain pat cs

/-- Python `key in v` for a string key: key membership on dicts, element
membership on lists (a string key only equals `str` elements), substring test
on strings, `TypeError` on non-iterables. -/
def py_in (key : String) (v : Value) : Except Exc Bool :=
  match v with
  | .vdict kvs => .ok (dictLookup kvs key).isSome
  | .vlist items =>
    .ok (items.any fun x =>
      match x with
      | .vstr s => s = key
      | _ => false)
  | .vstr s => .ok (charsContain key.data s.data)
  | .vnull => .error (.typeError "argument of type 'NoneType' is not iterable")
  | .vint _ => .error (.typeError "argument of type 'int' is not iterable")
  | .vbool _ => .error (.typeError "argument of type 'bool' is not iterable")

/-- Python truthiness (`if homeworks:`). -/
def pyTruthy : Value → Bool
  | .vnull => false
  | .vbool b => b
  | .vint n => n != 0
  | .vstr s => s != ""
  | .vlist items => !items.isEmpty
  | .vdict fields => !fields.isEmpty

/-- Is the value a Python `list`? (`isinstance(x, list)`). -/
def Value.isList : Value → Bool
  | .vlist _ => true
  | _ => false

/-- Is the value a Python `dict`? (`isinstance(x, dict)`). -/
def Value.isDict : Value → Bool
  | .vdict _ => true
  | _ => false

/-- The fixed poll period (`RETRY_PERIOD`, line 22). -/
def RETRY_PERIOD : Nat := 600

/-- `HOMEWORK_VERDICTS` (lines 27-31). -/
def HOMEWORK_VERDICTS : List (String × String) :=
  [("approved", "Работа проверена: ревьюеру всё понравилось. Ура!"),
   ("reviewing", "Работа взята на проверку ревьюером."),
   ("rejected", "Работа проверена: у ревьюера есть замечания.")]

/-- `HOMEWORK_VERDICTS[status]` when `status` is a known key; `none` exactly
when Python's `homework.get("status") not in HOMEWORK_VERDICTS` is true (the
dict's keys are strings, so a non-string status is never a member). -/
def verdictOf : Value → Option String
  | .vstr s => List.lookup s HOMEWORK_VERDICTS
  | _ => none

/-- Observable actions of the program: an HTTP request to the status API, a
Telegram send attempt, and log records by severity. -/
inductive Event where
  | fetch
  | send (text : String) (delivered : Bool)
  | logDebug (text : String)
  | logInfo (text : String)
  | logError (text : String)
  | logCritical (text : String)
deriving DecidableEq

/-- The texts of the Telegram send attempts among a list of events. -/
def sendTexts (evs : List Event) : List String :=
  evs.filterMap fun e =>
    match e with
    | .send t _ => some t
    | _ => none

/-- Is the event an HTTP request to the status API? -/
def Event.isFetch : Event → Bool
  | .fetch => true
  | _ => false

/-- `check_tokens` (lines 34-47): raises `EnvironmentVariableDoesNotExist` at
the first empty value, in the dict's insertion order. -/
def check_tokens (practicum_token telegram_token telegram_chat_id : String) :
    Except Exc Unit :=
  if practicum_token = "" then
    .error (.envVarError "Отсутствует обязательная переменная окружения: 'PRACTICUM_TOKEN'.")
  else if telegram_token = "" then
    .error (.envVarError "Отсутствует обязательная переменная окружения: 'TELEGRAM_TOKEN'.")
  else if telegram_chat_id = "" then
    .error (.envVarError "Отсутствует обязательная переменная окружения: 'TELEGRAM_CHAT_ID'.")
  else .ok ()

/-- `send_message` (lines 50-57). The Telegram transport is a parameter; its
failures are values of `Except Exc Unit`. The body's `try/except Exception`
catches every transport failure, so the result is `.ok` with the produced
events (the send attempt, then debug log on delivery or error log on failure);
the `Except Exc` result type records that the function could in principle
propagate an exception — the theorem for C8 shows it never does. -/
def send_message (transport : String → Except Exc Unit) (message : String) :
    Except Exc (List Event) :=
  match transport message with
  | .ok _ =>
    .ok [Event.send message true,
         Event.logDebug ("Сообщение отправлено в Telegram: '" ++ message ++ "' ")]
  | .error error =>
    .ok [Event.send message false,
         Event.logError ("Cбой при отправке сообщения в Telegram: '" ++ excStr error ++ "'")]

/-- The events of a `send_message` call (total by the C8 property). -/
def send_message_run (transport : String → Except Exc Unit) (message : String) :
    List Event :=
  match send_message transport message with
  | .ok evs => evs
  | .error _ => []

/-- One HTTP response from the status endpoint: status code, raw body text,
and the outcome of `response.json()`. -/
structure HttpResponse where
  status_code : Nat
  text : String
  body_json : Except String Value

/-- `get_api_answer` (lines 59-78): a transport error becomes `EndpointDisable`,
a non-200 status becomes `EndpointDisable`, then the body is logged at info
level (line 73) before `response.json()` is attempted; a JSON failure becomes
`requests.JSONDecodeError` with the formatted message. -/
def get_api_answer (net : Except String HttpResponse) :
    Except Exc Value × List Event :=
  match net with
  | .error error =>
    (.error (.endpointDisable ("Неуспешный запрос: '" ++ error ++ "'.")), [Event.fetch])
  | .ok r =>
    if r.status_code ≠ 200 then
      (.error (.endpointDisable ("Endpoint не доступен, HTTPStatus: " ++ toString r.status_code)),
       [Event.fetch])
    else
      (match r.body_json with
       | .error error => .error (.jsonDecodeError ("Ошибка преобразования в JSON: " ++ error))
       | .ok v => .ok v,
       [Event.fetch, Event.logInfo r.text])

/-- `check_response` (lines 81-92): type- and key-checks the response and
returns `response.get("homeworks")`. -/
def check_response (response : Value) : Except Exc Value :=
  match response with
  | .vdict kvs =>
    match dictLookup kvs "homeworks" with
    | none => .error (.keyError "Ответ API не содержит ключа 'homeworks'")
    | some homeworks =>
      if (dictLookup kvs "current_date").isNone then
        .error (.keyError "Ответ API не содержит ключа 'current_date'")
      else
        match homeworks with
        | .vlist _ => .ok homeworks
        | _ => .error (.typeError "Данные ключа 'homeworks' не соответствует типу 'list'.")
  | _ => .error (.typeError "Ответ API не соответствует типу 'dict'.")

/-- `parse_status` (lines 95-108) without its entry log (the `logging.info`
of line 97 is emitted by `cycle` at the call site). Note the unknown-status
branch first evaluates `homework['status']` inside the f-string, so a dict
without a `'status'` key raises `KeyError('status')` there. -/
def parse_status (homework : Value) : Except Exc String :=
  match py_in "homework_name" homework with
  | .error error => .error error
  | .ok b =>
    if !b then .error (.keyError "Ключ 'homework_name' отсутствует в 'homework'")
    else
      match pyGet homework "status" with
      | .error error => .error error
      | .ok status =>
        match verdictOf status with
        | none =>
          match pyIndex homework "status" with
          | .error error => .error error
          | .ok sv => .error (.keyError ("Неизвестный статус: '" ++ pyStr sv ++ "'"))
        | some verdict =>
          match pyGet homework "homework_name", pyGet homework "lesson_name" with
          | .error error, _ => .error error
          | _, .error error => .error error
          | .ok homework_name, .ok lesson_name =>
            .ok ("Изменился статус проверки работы \"" ++ pyStr homework_name ++ "\".\n"
                 ++ "Спринт \"" ++ pyStr lesson_name ++ "\".\n" ++ verdict)

/-- The mutable state of the poll loop: `timestamp` (line 129/136),
`previous_error_message` (line 130) and `previous_message` (line 131).
`timestamp` is a `Value` because line 136 stores whatever the response maps
`'current_date'` to. -/
structure LoopState where
  timestamp : Value
  previous_error_message : String
  previous_message : String

/-- The operator-facing text of a caught failure (line 148):
`f'Сбой в работе программы: {error}'`. -/
def errText (error : Exc) : String :=
  "Сбой в работе программы: " ++ excStr error

/-- The `except Exception` handler of the loop (lines 147-152): log the
formatted message at error level, and send it (updating
`previous_error_message`) only when it differs from the stored one. -/
def handle_error (transport : String → Except Exc Unit) (st : LoopState)
    (error : Exc) : LoopState × List Event :=
  let message := errText error
  if st.previous_error_message ≠ message then
    (LoopState.mk st.timestamp message st.previous_message,
     Event.logError message :: send_message_run transport message)
  else
    (st, [Event.logError message])

/-- One iteration of the `while True` body (lines 132-153, without the final
`time.sleep`): returns the state after the iteration, the events it produced,
and the exception caught by the `except Exception` handler (`none` on the
success path). The cursor assignment `timestamp = response["current_date"]`
(line 136) happens before `check_response`, so a later failure of the cycle
keeps the already-advanced cursor. -/
def cycle (transport : String → Except Exc Unit) (net : Except String HttpResponse)
    (st : LoopState) : LoopState × List Event × Option Exc :=
  let ev0 : List Event := [Event.logInfo ("Timestamp for checking " ++ pyStr st.timestamp)]
  let evs1 := ev0 ++ (get_api_answer net).2
  match (get_api_answer net).1 with
  | .error e =>
    ((handle_error transport st e).1,
     evs1 ++ (handle_error transport st e).2, some e)
  | .ok response =>
    match pyIndex response "current_date" with
    | .error e =>
      ((handle_error transport st e).1,
       evs1 ++ (handle_error transport st e).2, some e)
    | .ok ts =>
      let st1 := LoopState.mk ts st.previous_error_message st.previous_message
      let evs2 := evs1 ++ [Event.logInfo ("Timestamp for next checking " ++ pyStr ts)]
      match check_response response with
      | .error e =>
        ((handle_error transport st1 e).1,
         evs2 ++ (handle_error transport st1 e).2, some e)
      | .ok homeworks =>
        if pyTruthy homeworks then
          match pyIndexNat homeworks 0 with
          | .error e =>
            ((handle_error transport st1 e).1,
             evs2 ++ (handle_error transport st1 e).2, some e)
          | .ok hw0 =>
            let evs3 := evs2 ++ [Event.logInfo (pyStr hw0)]
            match parse_status hw0 with
            | .error e =>
              ((handle_error transport st1 e).1,
               evs3 ++ (handle_error transport st1 e).2, some e)
            | .ok message =>
              if message ≠ st1.previous_message then
                (LoopState.mk ts st.previous_error_message message,
                 evs3 ++ send_message_run transport message, none)
              else
                (st1, evs3, none)
        else
          (st1,
           evs2 ++ [Event.logDebug "Домашняя работа отсутствует или ее статус не изменился."],
           none)

/-- Iterating `cycle` over a finite trace of network outcomes. -/
def runCycles (transport : String → Except Exc Unit) :
    List (Except String HttpResponse) → LoopState → LoopState × List Event
  | [], st => (st, [])
  | net :: nets, st =>
    ((runCycles transport nets (cycle transport net st).1).1,
     (cycle transport net st).2.1 ++ (runCycles transport nets (cycle transport net st).1).2)

/-- The interpreted message of a network outcome on the success path of the
loop body, independent of the loop state: `some m` exactly when the cycle
fetches, validates a non-empty homeworks list, and `parse_status` of its
first item returns `m`. -/
def cycleMsg (net : Except String HttpResponse) : Option String :=
  match (get_api_answer net).1 with
  | .error _ => none
  | .ok response =>
    match pyIndex response "current_date" with
    | .error _ => none
    | .ok _ =>
      match check_response response with
      | .error _ => none
      | .ok homeworks =>
        if pyTruthy homeworks then
          match pyIndexNat homeworks 0 with
          | .error _ => none
          | .ok hw0 =>
            match parse_status hw0 with
            | .error _ => none
            | .ok message => some message
        else none

/-- Result of the startup prologue of `main` (lines 120-131): either the
process halted on missing configuration, or it enters the loop with its
initial state. -/
inductive StartResult where
  | halted
  | running (st : LoopState)

/-- The startup prologue of `main` (lines 120-131): `check_tokens`, critical
log and halt on failure; otherwise the initial informational notification and
the initial loop state (cursor = current wall-clock time, both de-duplication
memories empty). -/
def mainStartup (practicum_token telegram_token telegram_chat_id : String)
    (transport : String → Except Exc Unit) (start_time : Int) :
    StartResult × List Event :=
  match check_tokens practicum_token telegram_token telegram_chat_id with
  | .error error =>
    (.halted, [Event.logCritical (excStr error ++ " Программа принудительно остановлена.")])
  | .ok _ =>
    (.running (LoopState.mk (.vint start_time) "" ""),
     send_message_run transport
       ("Проверяю статус домашней работы каждые " ++ toString RETRY_PERIOD ++ " секунд"))

/-- The events of a whole program run: startup, then (unless halted) the loop
over the given trace of network outcomes. -/
def mainProgram (practicum_token telegram_token telegram_chat_id : String)
    (transport : String → Except Exc Unit) (start_time : Int)
    (nets : List (Except String HttpResponse)) : List Event :=
  match mainStartup practicum_token telegram_token telegram_chat_id transport start_time with
  | (StartResult.halted, evs) => evs
  | (StartResult.running st, evs) => evs ++ (runCycles transport nets st).2

/-! ### Helper lemmas -/

@[simp]
theorem sendTexts_append (a b : List Event) :
    sendTexts (a ++ b) = sendTexts a ++ sendTexts b :=
  List.filterMap_append a b _

theorem sendTexts_send_message_run (tr : String → Except Exc Unit) (m : String) :
    sendTexts (send_message_run tr m) = [m] := by
  cases h : tr m <;> simp [send_message_run, send_message, h, sendTexts]

theorem sendTexts_get_api_answer (net : Except String HttpResponse) :
    sendTexts (get_api_answer net).2 = [] := by
  cases net with
  | error e => simp [get_api_answer, sendTexts]
  | ok r =>
    by_cases h : r.status_code = 200 <;> simp [get_api_answer, h, sendTexts]

theorem handle_error_fst (tr : String → Except Exc Unit) (st : LoopState) (e : Exc) :
    (handle_error tr st e).1 = LoopState.mk st.timestamp (errText e) st.previous_message := by
  obtain ⟨a, b, c⟩ := st
  unfold handle_error
  by_cases h : b = errText e
  · subst h; simp
  · simp [h]

theorem handle_error_sendTexts (tr : String → Except Exc Unit) (st : LoopState) (e : Exc) :
    sendTexts (handle_error tr st e).2 =
      if st.previous_error_message = errText e then [] else [errText e] := by
  obtain ⟨a, b, c⟩ := st
  unfold handle_error
  by_cases h : b = errText e
  · subst h; simp [sendTexts]
  · simp [h, sendTexts]
    exact sendTexts_send_message_run tr (errText e)

theorem get_api_answer_error_shape (net : Except String HttpResponse) (e : Exc) :
    (get_api_answer net).1 = .error e →
    (∃ m, e = .endpointDisable m) ∨ ∃ m, e = .jsonDecodeError m := by
  cases net with
  | error s =>
    intro h
    simp [get_api_answer] at h
    exact Or.inl ⟨_, h.symm⟩
  | ok r =>
    by_cases hs : r.status_code = 200
    · intro h
      simp [get_api_answer, hs] at h
      cases hb : r.body_json with
      | error s => rw [hb] at h; simp at h; exact Or.inr ⟨_, h.symm⟩
      | ok v => rw [hb] at h; simp at h
    · intro h
      simp [get_api_answer, hs] at h
      exact Or.inl ⟨_, h.symm⟩

theorem pyIndex_ok_dict (r : Value) (key : String) (v : Value) :
    pyIndex r key = .ok v → ∃ kvs, r = .vdict kvs ∧ dictLookup kvs key = some v := by
  intro h
  cases r with
  | vnull => simp [pyIndex] at h
  | vbool b => simp [pyIndex] at h
  | vint n => simp [pyIndex] at h
  | vstr s => simp [pyIndex] at h
  | vlist items => simp [pyIndex] at h
  | vdict kvs =>
    refine ⟨kvs, rfl, ?_⟩
    simp only [pyIndex] at h
    cases hl : dictLookup kvs key with
    | none => rw [hl] at h; simp at h
    | some x => rw [hl] at h; simp at h; rw [h]

theorem pyIndex_error_shape (r : Value) (key : String) (e : Exc) :
    pyIndex r key = .error e → e = .keyError key ∨ ∃ m, e = .typeError m := by
  intro h
  cases r with
  | vnull => simp [pyIndex] at h; exact Or.inr ⟨_, h.symm⟩
  | vbool b => simp [pyIndex] at h; exact Or.inr ⟨_, h.symm⟩
  | vint n => simp [pyIndex] at h; exact Or.inr ⟨_, h.symm⟩
  | vstr s => simp [pyIndex] at h; exact Or.inr ⟨_, h.symm⟩
  | vlist items => simp [pyIndex] at h; exact Or.inr ⟨_, h.symm⟩
  | vdict kvs =>
    simp only [pyIndex] at h
    cases hl : dictLookup kvs key with
    | none => rw [hl] at h; simp at h; exact Or.inl h.symm
    | some x => rw [hl] at h; simp at h

theorem py_in_error_shape (key : String) (v : Value) (e : Exc) :
    py_in key v = .error e → ∃ m, e = .typeError m := by
  intro h
  cases v with
  | vnull => simp [py_in] at h; exact ⟨_, h.symm⟩
  | vbool b => simp [py_in] at h; exact ⟨_, h.symm⟩
  | vint n => simp [py_in] at h; exact ⟨_, h.symm⟩
  | vstr s => simp [py_in] at h
  | vlist items => simp [py_in] at h
  | vdict kvs => simp [py_in] at h

theorem pyGet_error_shape (v : Value) (key : String) (e : Exc) :
    pyGet v key = .error e → ∃ m, e = .attributeError m := by
  intro h
  cases v with
  | vnull => simp [pyGet] at h; exact ⟨_, h.symm⟩
  | vbool b => simp [pyGet] at h; exact ⟨_, h.symm⟩
  | vint n => simp [pyGet] at h; exact ⟨_, h.symm⟩
  | vstr s => simp [pyGet] at h; exact ⟨_, h.symm⟩
  | vlist items => simp [pyGet] at h; exact ⟨_, h.symm⟩
  | vdict kvs => simp [pyGet] at h

theorem check_response_error_shape (kvs : List (String × Value)) (ts : Value) (e : Exc)
    (hcd : dictLookup kvs "current_date" = some ts) :
    check_response (.vdict kvs) = .error e →
    e = .keyError "Ответ API не содержит ключа 'homeworks'" ∨ ∃ m, e = .typeError m := by
  intro h
  simp only [check_response] at h
  cases hl : dictLookup kvs "homeworks" with
  | none => rw [hl] at h; simp at h; exact Or.inl h.symm
  | some hw =>
    rw [hl, hcd] at h
    simp at h
    cases hw with
    | vnull => simp at h; exact Or.inr ⟨_, h.symm⟩
    | vbool b => simp at h; exact Or.inr ⟨_, h.symm⟩
    | vint n => simp at h; exact Or.inr ⟨_, h.symm⟩
    | vstr s => simp at h; exact Or.inr ⟨_, h.symm⟩
    | vlist items => simp at h
    | vdict kvs2 => simp at h; exact Or.inr ⟨_, h.symm⟩

theorem parse_status_keyError_shape (hw : Value) (k : String) :
    parse_status hw = .error (.keyError k) →
    k = "Ключ 'homework_name' отсутствует в 'homework'" ∨ k = "status" ∨
    ∃ s, k = "Неизвестный статус: '" ++ s := by
  intro h
  simp only [parse_status] at h
  split at h
  · rename_i err heq
    obtain ⟨m, hm⟩ := py_in_error_shape _ _ _ heq
    subst hm
    simp at h
  · rename_i b heq
    split at h
    · simp at h
      exact Or.inl h.symm
    · split at h
      · rename_i err heq2
        obtain ⟨m, hm⟩ := pyGet_error_shape _ _ _ heq2
        subst hm
        simp at h
      · rename_i status heq2
        split at h
        · split at h
          · rename_i err heq3
            rcases pyIndex_error_shape _ _ _ heq3 with he | ⟨m, hm⟩
            · subst he
              simp at h
              exact Or.inr (Or.inl h.symm)
            · subst hm
              simp at h
          · rename_i sv heq3
            simp at h
            exact Or.inr (Or.inr ⟨pyStr sv ++ "'", by rw [← h, String.append_assoc]⟩)
        · rename_i verdict hv
          split at h
          · rename_i e3 heq4
            obtain ⟨m, hm⟩ := pyGet_error_shape _ _ _ heq4
            subst hm
            simp at h
          · rename_i e3 heqL hov
            obtain ⟨m, hm⟩ := pyGet_error_shape _ _ _ heqL
            subst hm
            simp at h
          · simp at h

theorem unknown_status_text_ne (s : String) :
    ¬ ("Неизвестный статус: '" ++ s = "Ответ API не содержит ключа 'current_date'") := by
  intro h
  have hd := congrArg String.data h
  rw [String.data_append] at hd
  have h1 : "Неизвестный статус: '".data = 'Н' :: "еизвестный статус: '".data := by decide
  rw [h1, List.cons_append] at hd
  have h2 : "Ответ API не содержит ключа 'current_date'".data
      = 'О' :: "твет API не содержит ключа 'current_date'".data := by decide
  rw [h2] at hd
  injection hd with hc _
  exact absurd hc (by decide)

@[simp]
theorem sendTexts_nil : sendTexts [] = [] := rfl

@[simp]
theorem sendTexts_cons_fetch (evs : List Event) :
    sendTexts (Event.fetch :: evs) = sendTexts evs := rfl

@[simp]
theorem sendTexts_cons_send (t : String) (d : Bool) (evs : List Event) :
    sendTexts (Event.send t d :: evs) = t :: sendTexts evs := rfl

@[simp]
theorem sendTexts_cons_logDebug (t : String) (evs : List Event) :
    sendTexts (Event.logDebug t :: evs) = sendTexts evs := rfl

@[simp]
theorem sendTexts_cons_logInfo (t : String) (evs : List Event) :
    sendTexts (Event.logInfo t :: evs) = sendTexts evs := rfl

@[simp]
theorem sendTexts_cons_logError (t : String) (evs : List Event) :
    sendTexts (Event.logError t :: evs) = sendTexts evs := rfl

@[simp]
theorem sendTexts_cons_logCritical (t : String) (evs : List Event) :
    sendTexts (Event.logCritical t :: evs) = sendTexts evs := rfl

theorem cycle_error_spec (tr : String → Except Exc Unit) (net : Except String HttpResponse)
    (st st' : LoopState) (evs : List Event) (e : Exc) :
    cycle tr net st = (st', evs, some e) →
    st'.previous_error_message = errText e ∧
    st'.previous_message = st.previous_message ∧
    sendTexts evs = (if st.previous_error_message = errText e then [] else [errText e]) ∧
    (st'.timestamp = st.timestamp ∨
      ∃ r, (get_api_answer net).1 = .ok r ∧ pyIndex r "current_date" = .ok st'.timestamp) := by
  intro h
  simp only [cycle] at h
  split at h
  · rename_i e0 heq
    injection h with h1 h23
    injection h23 with h2 h3
    injection h3 with h3
    subst h1 h2 h3
    simp [handle_error_fst, handle_error_sendTexts, sendTexts_get_api_answer]
  · rename_i response heq
    split at h
    · rename_i e0 hcd
      injection h with h1 h23
      injection h23 with h2 h3
      injection h3 with h3
      subst h1 h2 h3
      simp [handle_error_fst, handle_error_sendTexts, sendTexts_get_api_answer]
    · rename_i ts hcd
      split at h
      · rename_i e0 hcr
        injection h with h1 h23
        injection h23 with h2 h3
        injection h3 with h3
        subst h1 h2 h3
        refine ⟨by simp [handle_error_fst], by simp [handle_error_fst], ?_, ?_⟩
        · simp [handle_error_sendTexts, sendTexts_get_api_answer]
        · exact Or.inr ⟨response, heq, by simp [handle_error_fst]; exact hcd⟩
      · rename_i homeworks hcr
        split at h
        · split at h
          · rename_i e0 hidx
            injection h with h1 h23
            injection h23 with h2 h3
            injection h3 with h3
            subst h1 h2 h3
            refine ⟨by simp [handle_error_fst], by simp [handle_error_fst], ?_, ?_⟩
            · simp [handle_error_sendTexts, sendTexts_get_api_answer]
            · exact Or.inr ⟨response, heq, by simp [handle_error_fst]; exact hcd⟩
          · rename_i hw0 hidx
            split at h
            · rename_i e0 hps
              injection h with h1 h23
              injection h23 with h2 h3
              injection h3 with h3
              subst h1 h2 h3
              refine ⟨by simp [handle_error_fst], by simp [handle_error_fst], ?_, ?_⟩
              · simp [handle_error_sendTexts, sendTexts_get_api_answer]
              · exact Or.inr ⟨response, heq, by simp [handle_error_fst]; exact hcd⟩
            · rename_i message hps
              split at h
              · injection h with h1 h23
                injection h23 with h2 h3
                injection h3
              · injection h with h1 h23
                injection h23 with h2 h3
                injection h3
        · injection h with h1 h23
          injection h23 with h2 h3
          injection h3

theorem cycle_none_spec (tr : String → Except Exc Unit) (net : Except String HttpResponse)
    (st st' : LoopState) (evs : List Event) :
    cycle tr net st = (st', evs, none) →
    st'.previous_error_message = st.previous_error_message := by
  intro h
  simp only [cycle] at h
  split at h
  · injection h with h1 h23
    injection h23 with h2 h3
    injection h3
  · split at h
    · injection h with h1 h23
      injection h23 with h2 h3
      injection h3
    · split at h
      · injection h with h1 h23
        injection h23 with h2 h3
        injection h3
      · split at h
        · split at h
          · injection h with h1 h23
            injection h23 with h2 h3
            injection h3
          · split at h
            · injection h with h1 h23
              injection h23 with h2 h3
              injection h3
            · split at h
              · injection h with h1 h23
                subst h1
                rfl
              · injection h with h1 h23
                subst h1
                rfl
        · injection h with h1 h23
          subst h1
          rfl

theorem cycle_timestamp_spec (tr : String → Except Exc Unit) (net : Except String HttpResponse)
    (st st' : LoopState) (evs : List Event) (c : Option Exc) :
    cycle tr net st = (st', evs, c) →
    st'.timestamp = st.timestamp ∨
      ∃ r, (get_api_answer net).1 = .ok r ∧ pyIndex r "current_date" = .ok st'.timestamp := by
  intro h
  simp only [cycle] at h
  split at h
  · injection h with h1 h23
    subst h1
    exact Or.inl (by simp [handle_error_fst])
  · rename_i response heq
    split at h
    · injection h with h1 h23
      subst h1
      exact Or.inl (by simp [handle_error_fst])
    · rename_i ts hcd
      split at h
      · injection h with h1 h23
        subst h1
        exact Or.inr ⟨response, heq, by simp [handle_error_fst]; exact hcd⟩
      · split at h
        · split at h
          · injection h with h1 h23
            subst h1
            exact Or.inr ⟨response, heq, by simp [handle_error_fst]; exact hcd⟩
          · split at h
            · injection h with h1 h23
              subst h1
              exact Or.inr ⟨response, heq, by simp [handle_error_fst]; exact hcd⟩
            · split at h
              · injection h with h1 h23
                subst h1
                exact Or.inr ⟨response, heq, hcd⟩
              · injection h with h1 h23
                subst h1
                exact Or.inr ⟨response, heq, hcd⟩
        · injection h with h1 h23
          subst h1
          exact Or.inr ⟨response, heq, hcd⟩

theorem cycle_success_spec (tr : String → Except Exc Unit) (net : Except String HttpResponse)
    (st st' : LoopState) (evs : List Event) (c : Option Exc) (m : String) :
    cycleMsg net = some m →
    cycle tr net st = (st', evs, c) →
    c = none ∧ st'.previous_message = m ∧
    st'.previous_error_message = st.previous_error_message ∧
    sendTexts evs = (if st.previous_message = m then [] else [m]) := by
  intro hm h
  simp only [cycleMsg] at hm
  split at hm
  · exact Option.noConfusion hm
  · rename_i response heq
    split at hm
    · exact Option.noConfusion hm
    · rename_i ts hcd
      split at hm
      · exact Option.noConfusion hm
      · rename_i homeworks hcr
        split at hm
        · rename_i htru
          split at hm
          · exact Option.noConfusion hm
          · rename_i hw0 hidx
            split at hm
            · exact Option.noConfusion hm
            · rename_i message hps
              injection hm with hm
              subst hm
              simp only [cycle, heq, hcd, hcr, htru, hidx, hps, if_true] at h
              by_cases hprev : message = st.previous_message
              · simp [hprev] at h
                obtain ⟨h1, h2, h3⟩ := h
                subst h1 h2 h3
                simp [hprev, sendTexts_get_api_answer]
              · simp [hprev] at h
                obtain ⟨h1, h2, h3⟩ := h
                subst h1 h2 h3
                refine ⟨rfl, rfl, rfl, ?_⟩
                rw [if_neg (by intro hx; exact hprev hx.symm)]
                simp [sendTexts_get_api_answer, sendTexts_send_message_run]
        · exact Option.noConfusion hm

theorem pyIndexNat_error_shape (v : Value) (i : Nat) (e : Exc) :
    pyIndexNat v i = .error e →
    e = .keyError (toString i) ∨ (∃ m, e = .indexError m) ∨ ∃ m, e = .typeError m := by
  intro h
  cases v with
  | vnull => simp [pyIndexNat] at h; exact Or.inr (Or.inr ⟨_, h.symm⟩)
  | vbool b => simp [pyIndexNat] at h; exact Or.inr (Or.inr ⟨_, h.symm⟩)
  | vint n => simp [pyIndexNat] at h; exact Or.inr (Or.inr ⟨_, h.symm⟩)
  | vstr s => simp [pyIndexNat] at h; exact Or.inr (Or.inr ⟨_, h.symm⟩)
  | vdict kvs => simp [pyIndexNat] at h; exact Or.inl h.symm
  | vlist items =>
    simp only [pyIndexNat] at h
    cases hl : items.get? i with
    | none => rw [hl] at h; simp at h; exact Or.inr (Or.inl ⟨_, h.symm⟩)
    | some x => rw [hl] at h; simp at h

theorem cycle_caught_source (tr : String → Except Exc Unit) (net : Except String HttpResponse)
    (st st' : LoopState) (evs : List Event) (e : Exc) :
    cycle tr net st = (st', evs, some e) →
    (get_api_answer net).1 = .error e ∨
    (∃ r, (get_api_answer net).1 = .ok r ∧ pyIndex r "current_date" = .error e) ∨
    (∃ r ts, (get_api_answer net).1 = .ok r ∧ pyIndex r "current_date" = .ok ts ∧
      check_response r = .error e) ∨
    (∃ hws, pyIndexNat hws 0 = .error e) ∨
    (∃ hw0, parse_status hw0 = .error e) := by
  intro h
  simp only [cycle] at h
  split at h
  · rename_i e0 heq
    injection h with h1 h23
    injection h23 with h2 h3
    injection h3 with h3
    subst h3
    exact Or.inl heq
  · rename_i response heq
    split at h
    · rename_i e0 hcd
      injection h with h1 h23
      injection h23 with h2 h3
      injection h3 with h3
      subst h3
      exact Or.inr (Or.inl ⟨response, heq, hcd⟩)
    · rename_i ts hcd
      split at h
      · rename_i e0 hcr
        injection h with h1 h23
        injection h23 with h2 h3
        injection h3 with h3
        subst h3
        exact Or.inr (Or.inr (Or.inl ⟨response, ts, heq, hcd, hcr⟩))
      · rename_i homeworks hcr
        split at h
        · split at h
          · rename_i e0 hidx
            injection h with h1 h23
            injection h23 with h2 h3
            injection h3 with h3
            subst h3
            exact Or.inr (Or.inr (Or.inr (Or.inl ⟨homeworks, hidx⟩)))
          · rename_i hw0 hidx
            split at h
            · rename_i e0 hps
              injection h with h1 h23
              injection h23 with h2 h3
              injection h3 with h3
              subst h3
              exact Or.inr (Or.inr (Or.inr (Or.inr ⟨hw0, hps⟩)))
            · rename_i message hps
              split at h
              · injection h with h1 h23
                injection h23 with h2 h3
                injection h3
              · injection h with h1 h23
                injection h23 with h2 h3
                injection h3
        · injection h with h1 h23
          injection h23 with h2 h3
          injection h3

/-! ### Concrete fixtures used by witnesses and counterexamples -/

/-- A Telegram transport whose every delivery succeeds. -/
def transportOk : String → Except Exc Unit := fun _ => .ok ()

/-- A Telegram transport whose every delivery raises. -/
def transportDown : String → Except Exc Unit :=
  fun _ => .error (.typeError "Telegram unavailable")

/-- Loop state at the start of the first cycle (cursor `0`, both memories empty). -/
def stZero : LoopState := ⟨.vint 0, "", ""⟩

/-- A homework item with a known status. -/
def hwApproved : Value :=
  .vdict [("homework_name", .vstr "hw1"), ("lesson_name", .vstr "Sprint 1"),
          ("status", .vstr "approved")]

/-- A valid response body with one homework item. -/
def bodyGood : Value :=
  .vdict [("homeworks", .vlist [hwApproved]), ("current_date", .vint 7)]

/-- A successful fetch of `bodyGood`. -/
def netGood : Except String HttpResponse := .ok ⟨200, "raw", .ok bodyGood⟩

/-- The message `parse_status` produces for `hwApproved`. -/
def msgGood : String :=
  "Изменился статус проверки работы \"hw1\".\nСпринт \"Sprint 1\".\n" ++
  "Работа проверена: ревьюеру всё понравилось. Ура!"

/-- A response body with `current_date` but no `homeworks` key. -/
def bodyNoHomeworks : Value := .vdict [("current_date", .vint 42)]

/-- A successful fetch of `bodyNoHomeworks` (fails validation). -/
def netNoHomeworks : Except String HttpResponse := .ok ⟨200, "raw", .ok bodyNoHomeworks⟩

/-- A valid response body with an empty homeworks list. -/
def bodyEmpty : Value :=
  .vdict [("homeworks", .vlist []), ("current_date", .vint 9)]

/-- A successful fetch of `bodyEmpty`. -/
def netEmpty : Except String HttpResponse := .ok ⟨200, "raw", .ok bodyEmpty⟩

/-- Loop state whose cursor is already at `100`. -/
def stHundred : LoopState := ⟨.vint 100, "", ""⟩

/-- A valid response whose `current_date` (`50`) lies before the cursor `100`. -/
def bodyRewind : Value :=
  .vdict [("homeworks", .vlist []), ("current_date", .vint 50)]

/-- A successful fetch of `bodyRewind`. -/
def netRewind : Except String HttpResponse := .ok ⟨200, "raw", .ok bodyRewind⟩

theorem runCycles_count_le (tr : String → Except Exc Unit) (m : String) :
    ∀ (nets : List (Except String HttpResponse)) (st : LoopState),
    (∀ n ∈ nets, cycleMsg n = some m) →
    (sendTexts (runCycles tr nets st).2).count m ≤
      (if st.previous_message = m then 0 else 1) := by
  intro nets
  induction nets with
  | nil =>
    intro st h
    simp [runCycles]
  | cons n ns ih =>
    intro st h
    have hn : cycleMsg n = some m := h n (by simp)
    have hrest : ∀ x ∈ ns, cycleMsg x = some m := fun x hx => h x (by simp [hx])
    obtain ⟨hc, hpm, hpe, hsend⟩ :=
      cycle_success_spec tr n st (cycle tr n st).1 (cycle tr n st).2.1
        (cycle tr n st).2.2 m hn rfl
    simp only [runCycles]
    rw [sendTexts_append, List.count_append]
    have h2le : (sendTexts (runCycles tr ns (cycle tr n st).1).2).count m ≤ 0 := by
      have h2 := ih ((cycle tr n st).1) hrest
      rwa [hpm, if_pos rfl] at h2
    have h0 : (sendTexts (runCycles tr ns (cycle tr n st).1).2).count m = 0 :=
      Nat.le_zero.mp h2le
    rw [hsend, h0]
    by_cases hp : st.previous_message = m
    · simp [hp]
    · simp [hp]

/-! ### Claim theorems -/

/-- C1 (amended): in every cycle that ends with a caught failure, the failure
is handled by the loop-boundary handler (the state records the formatted error
text), and the cursor is unchanged unless the fetch succeeded and the response
supplied a `current_date`, in which case the cursor has already been advanced
to exactly that server-reported value before the failure. -/
theorem C1_failure_caught_cursor (tr : String → Except Exc Unit)
    (net : Except String HttpResponse) (st st' : LoopState) (evs : List Event) (e : Exc) :
    cycle tr net st = (st', evs, some e) →
    st'.previous_error_message = errText e ∧
    (st'.timestamp = st.timestamp ∨
      ∃ r, (get_api_answer net).1 = .ok r ∧ pyIndex r "current_date" = .ok st'.timestamp) := by
  intro h
  obtain ⟨h1, h2, h3, h4⟩ := cycle_error_spec tr net st st' evs e h
  exact ⟨h1, h4⟩

/-- C1 counterexample: a fetched response that carries `current_date` (42) but
no `homeworks` key makes the cycle fail (the failure is caught), yet the
cursor does not keep its value from the start of the cycle: it has moved from
0 to 42. This refutes the claim that an erroring cycle never alters the cursor. -/
theorem C1_counterexample :
    (cycle transportOk netNoHomeworks stZero).2.2 =
      some (Exc.keyError "Ответ API не содержит ключа 'homeworks'") ∧
    (cycle transportOk netNoHomeworks stZero).1.timestamp = Value.vint 42 ∧
    stZero.timestamp = Value.vint 0 ∧ Value.vint 42 ≠ Value.vint 0 := by
  refine ⟨rfl, rfl, rfl, ?_⟩
  intro hx
  injection hx with hn
  exact absurd hn (by decide)

/-- C1 witness: the amended theorem applied to the concrete failing cycle. -/
theorem C1_witness :
    (cycle transportOk netNoHomeworks stZero).1.previous_error_message =
      errText (Exc.keyError "Ответ API не содержит ключа 'homeworks'") ∧
    ((cycle transportOk netNoHomeworks stZero).1.timestamp = stZero.timestamp ∨
      ∃ r, (get_api_answer netNoHomeworks).1 = .ok r ∧
        pyIndex r "current_date" = .ok ((cycle transportOk netNoHomeworks stZero).1.timestamp)) :=
  C1_failure_caught_cursor transportOk netNoHomeworks stZero
    (cycle transportOk netNoHomeworks stZero).1 (cycle transportOk netNoHomeworks stZero).2.1
    (Exc.keyError "Ответ API не содержит ключа 'homeworks'") rfl

/-- C2: in a failing cycle, the stored last error text afterwards equals the
cycle's formatted failure text, and the cycle sends exactly one notification
(the failure text) when that text differs from the stored one and none when
it is an immediate repeat; a successful cycle leaves the stored last error
text untouched, so a later recurrence of the same failure text is still
suppressed until a different error message intervenes. -/
theorem C2_error_dedup (tr : String → Except Exc Unit) (net : Except String HttpResponse)
    (st st' : LoopState) (evs : List Event) (c : Option Exc) :
    cycle tr net st = (st', evs, c) →
    (∀ e, c = some e →
      st'.previous_error_message = errText e ∧
      sendTexts evs = (if st.previous_error_message = errText e then [] else [errText e])) ∧
    (c = none → st'.previous_error_message = st.previous_error_message) := by
  intro h
  constructor
  · intro e hce
    subst hce
    obtain ⟨h1, h2, h3, h4⟩ := cycle_error_spec tr net st st' evs e h
    exact ⟨h1, h3⟩
  · intro hce
    subst hce
    exact cycle_none_spec tr net st st' evs h

/-- C2 witness: the concrete failing cycle sends its failure text exactly once
when the stored last error text differs. -/
theorem C2_witness :
    (cycle transportOk netNoHomeworks stZero).1.previous_error_message =
      errText (Exc.keyError "Ответ API не содержит ключа 'homeworks'") ∧
    sendTexts (cycle transportOk netNoHomeworks stZero).2.1 =
      [errText (Exc.keyError "Ответ API не содержит ключа 'homeworks'")] := by
  have h :=
    (C2_error_dedup transportOk netNoHomeworks stZero
      (cycle transportOk netNoHomeworks stZero).1
      (cycle transportOk netNoHomeworks stZero).2.1
      (cycle transportOk netNoHomeworks stZero).2.2 rfl).1
      (Exc.keyError "Ответ API не содержит ключа 'homeworks'") rfl
  refine ⟨h.1, ?_⟩
  rw [h.2, if_neg (by decide)]

/-- C6 (amended): in every cycle the cursor is either untouched, or it equals
the `current_date` value of a successfully fetched response; monotonicity is
not enforced (see the counterexample). -/
theorem C6_cursor_update (tr : String → Except Exc Unit) (net : Except String HttpResponse)
    (st : LoopState) :
    (cycle tr net st).1.timestamp = st.timestamp ∨
      ∃ r, (get_api_answer net).1 = .ok r ∧
        pyIndex r "current_date" = .ok ((cycle tr net st).1.timestamp) :=
  cycle_timestamp_spec tr net st (cycle tr net st).1 (cycle tr net st).2.1
    (cycle tr net st).2.2 rfl

/-- C6 counterexample: a server that reports `current_date = 50` while the
cursor is at 100 rewinds the cursor, refuting the "never rewound" part of
the claim. -/
theorem C6_counterexample :
    stHundred.timestamp = Value.vint 100 ∧
    (cycle transportOk netRewind stHundred).1.timestamp = Value.vint 50 ∧
    (50 : Int) < 100 :=
  ⟨rfl, rfl, by decide⟩

/-- C3: over any run of consecutive successful cycles whose first homework
item interprets to the identical message `m`, the Telegram sink is invoked
for `m` at most once — the stored last message suppresses all repeats. -/
theorem C3_message_dedup (tr : String → Except Exc Unit) (m : String)
    (nets : List (Except String HttpResponse)) (st : LoopState) :
    (∀ n ∈ nets, cycleMsg n = some m) →
    (sendTexts (runCycles tr nets st).2).count m ≤ 1 := by
  intro h
  have hle := runCycles_count_le tr m nets st h
  by_cases hp : st.previous_message = m
  · rw [if_pos hp] at hle
    omega
  · rw [if_neg hp] at hle
    omega

/-- C3 witness: two consecutive identical successful cycles send the message
at most once. -/
theorem C3_witness :
    (sendTexts (runCycles transportOk [netGood, netGood] stZero).2).count msgGood ≤ 1 :=
  C3_message_dedup transportOk msgGood [netGood, netGood] stZero (by decide)

/-- C4: a cycle over a valid response whose `homeworks` list is empty sends
no notification, advances the cursor to the response's `current_date`, and
raises nothing. -/
theorem C4_empty_homeworks (tr : String → Except Exc Unit) (st : LoopState)
    (r ts : Value) (txt : String)
    (hcr : check_response r = .ok (.vlist []))
    (hcd : pyIndex r "current_date" = .ok ts) :
    (cycle tr (.ok ⟨200, txt, .ok r⟩) st).1.timestamp = ts ∧
    sendTexts (cycle tr (.ok ⟨200, txt, .ok r⟩) st).2.1 = [] ∧
    (cycle tr (.ok ⟨200, txt, .ok r⟩) st).2.2 = none := by
  have hga : get_api_answer (.ok ⟨200, txt, .ok r⟩) =
      (.ok r, [Event.fetch, Event.logInfo txt]) := by
    simp [get_api_answer]
  simp only [cycle, hga]
  simp [hcd, hcr, pyTruthy]

/-- C4 witness: the concrete empty-homeworks cycle. -/
theorem C4_witness :
    (cycle transportOk netEmpty stZero).1.timestamp = Value.vint 9 ∧
    sendTexts (cycle transportOk netEmpty stZero).2.1 = [] ∧
    (cycle transportOk netEmpty stZero).2.2 = none :=
  C4_empty_homeworks transportOk stZero bodyEmpty (Value.vint 9) "raw" rfl rfl

/-- C9: the de-duplication memories are overwritten whenever a send is
attempted with a new, different text — for every transport, including one
whose deliveries fail — and once the stored text equals the cycle's text no
send is attempted at all, so a message whose delivery failed is never
re-attempted while its text stays the same. -/
theorem C9_memory_updated_even_if_delivery_fails (tr : String → Except Exc Unit)
    (net : Except String HttpResponse) (st st' : LoopState) (evs : List Event)
    (c : Option Exc) :
    cycle tr net st = (st', evs, c) →
    (∀ m, cycleMsg net = some m →
      st'.previous_message = m ∧ (st.previous_message = m → sendTexts evs = [])) ∧
    (∀ e, c = some e →
      st'.previous_error_message = errText e ∧
      (st.previous_error_message = errText e → sendTexts evs = [])) := by
  intro h
  constructor
  · intro m hm
    obtain ⟨hc, hpm, hpe, hsend⟩ := cycle_success_spec tr net st st' evs c m hm h
    exact ⟨hpm, fun hp => by rw [hsend, if_pos hp]⟩
  · intro e hce
    subst hce
    obtain ⟨h1, h2, h3, h4⟩ := cycle_error_spec tr net st st' evs e h
    exact ⟨h1, fun hp => by rw [h3, if_pos hp]⟩

/-- C9 witness: with an always-failing transport, the first cycle still
stores the message, and a cycle whose stored message equals the new text
attempts no send. -/
theorem C9_witness :
    (cycle transportDown netGood stZero).1.previous_message = msgGood ∧
    sendTexts (cycle transportDown netGood ⟨Value.vint 0, "", msgGood⟩).2.1 = [] := by
  refine ⟨?_, ?_⟩
  · exact ((C9_memory_updated_even_if_delivery_fails transportDown netGood stZero
      (cycle transportDown netGood stZero).1 (cycle transportDown netGood stZero).2.1
      (cycle transportDown netGood stZero).2.2 rfl).1 msgGood (by decide)).1
  · exact ((C9_memory_updated_even_if_delivery_fails transportDown netGood
      ⟨Value.vint 0, "", msgGood⟩
      (cycle transportDown netGood ⟨Value.vint 0, "", msgGood⟩).1
      (cycle transportDown netGood ⟨Value.vint 0, "", msgGood⟩).2.1
      (cycle transportDown netGood ⟨Value.vint 0, "", msgGood⟩).2.2 rfl).1 msgGood
      (by decide)).2 rfl

/-- C5 counterexample: the response `bodyEmpty` is accepted by the validator,
but the validator's return value is the `homeworks` list, not the validated
response itself — so "returns the validated StatusResponse unchanged" fails. -/
theorem C5_counterexample :
    check_response bodyEmpty = .ok (.vlist []) ∧ Value.vlist [] ≠ bodyEmpty :=
  ⟨rfl, fun hx => Value.noConfusion hx⟩

/-- C5 (amended): for every input the validator accepts (a dict with a
`homeworks` key holding a list and a `current_date` key), validation succeeds
and returns the response's `homeworks` list unchanged. -/
theorem C5_validator_returns_homeworks (kvs : List (String × Value)) (hw : Value) :
    dictLookup kvs "homeworks" = some hw → hw.isList = true →
    (dictLookup kvs "current_date").isSome = true →
    check_response (.vdict kvs) = .ok hw := by
  intro h1 h2 h3
  have h4 : (dictLookup kvs "current_date").isNone = false := by
    cases hopt : dictLookup kvs "current_date" with
    | none => rw [hopt] at h3; simp at h3
    | some x => simp
  simp only [check_response, h1, h4]
  cases hw with
  | vnull => simp [Value.isList] at h2
  | vbool b => simp [Value.isList] at h2
  | vint n => simp [Value.isList] at h2
  | vstr s => simp [Value.isList] at h2
  | vdict kvs2 => simp [Value.isList] at h2
  | vlist items => simp

/-- C5 witness: the amended theorem at the concrete accepted response. -/
theorem C5_witness :
    check_response (.vdict [("homeworks", .vlist []), ("current_date", .vint 9)]) =
      .ok (.vlist []) :=
  C5_validator_returns_homeworks [("homeworks", .vlist []), ("current_date", .vint 9)]
    (.vlist []) rfl rfl rfl

/-- C7: when any of the three required configuration values is empty, startup
halts with a single critical-level log, and the whole program run performs no
Telegram send and no HTTP fetch. -/
theorem C7_missing_config_halts (p t c : String) (tr : String → Except Exc Unit)
    (t0 : Int) (nets : List (Except String HttpResponse)) :
    p = "" ∨ t = "" ∨ c = "" →
    (mainStartup p t c tr t0).1 = StartResult.halted ∧
    (∃ m, mainProgram p t c tr t0 nets = [Event.logCritical m]) ∧
    sendTexts (mainProgram p t c tr t0 nets) = [] ∧
    (mainProgram p t c tr t0 nets).filter Event.isFetch = [] := by
  intro h
  have he : ∃ e, check_tokens p t c = .error e := by
    by_cases hp : p = ""
    · exact ⟨.envVarError "Отсутствует обязательная переменная окружения: 'PRACTICUM_TOKEN'.",
        by simp [check_tokens, hp]⟩
    · by_cases ht : t = ""
      · exact ⟨.envVarError "Отсутствует обязательная переменная окружения: 'TELEGRAM_TOKEN'.",
          by simp [check_tokens, hp, ht]⟩
      · by_cases hc : c = ""
        · exact ⟨.envVarError "Отсутствует обязательная переменная окружения: 'TELEGRAM_CHAT_ID'.",
            by simp [check_tokens, hp, ht, hc]⟩
        · rcases h with h | h | h <;> simp_all
  obtain ⟨e, he⟩ := he
  have hs : mainStartup p t c tr t0 =
      (StartResult.halted,
       [Event.logCritical (excStr e ++ " Программа принудительно остановлена.")]) := by
    simp [mainStartup, he]
  have hm : mainProgram p t c tr t0 nets =
      [Event.logCritical (excStr e ++ " Программа принудительно остановлена.")] := by
    simp [mainProgram, hs]
  exact ⟨by rw [hs], ⟨_, hm⟩, by rw [hm]; rfl, by rw [hm]; rfl⟩

/-- C7 witness: empty API credential at startup. -/
theorem C7_witness :
    (mainStartup "" "tok" "chat" transportOk 0).1 = StartResult.halted ∧
    (∃ m, mainProgram "" "tok" "chat" transportOk 0 [] = [Event.logCritical m]) ∧
    sendTexts (mainProgram "" "tok" "chat" transportOk 0 []) = [] ∧
    (mainProgram "" "tok" "chat" transportOk 0 []).filter Event.isFetch = [] :=
  C7_missing_config_halts "" "tok" "chat" transportOk 0 [] (Or.inl rfl)

/-- C8: `send_message` returns normally for every message text and every
behaviour of the Telegram transport — a delivery failure is caught inside
and only logged, never re-raised to the caller. -/
theorem C8_send_message_never_raises (tr : String → Except Exc Unit) (m : String) :
    ∃ evs, send_message tr m = .ok evs := by
  cases h : tr m with
  | ok u =>
    exact ⟨[Event.send m true,
      Event.logDebug ("Сообщение отправлено в Telegram: '" ++ m ++ "' ")],
      by simp [send_message, h]⟩
  | error e =>
    exact ⟨[Event.send m false,
      Event.logError ("Cбой при отправке сообщения в Telegram: '" ++ excStr e ++ "'")],
      by simp [send_message, h]⟩

/-- C10: the loop can never catch the validator's missing-`current_date`
error: the cursor assignment reads `response["current_date"]` before
`check_response` runs, so a response lacking the key fails at that read
(with a different exception) and a response reaching the validator always
passes its `current_date` check. -/
theorem C10_validator_cd_branch_unreachable (tr : String → Except Exc Unit)
    (net : Except String HttpResponse) (st : LoopState) :
    (cycle tr net st).2.2 ≠
      some (Exc.keyError "Ответ API не содержит ключа 'current_date'") := by
  intro hc
  have hcy : cycle tr net st =
      ((cycle tr net st).1, (cycle tr net st).2.1,
       some (Exc.keyError "Ответ API не содержит ключа 'current_date'")) := by
    rw [← hc]
  have hsrc := cycle_caught_source tr net st (cycle tr net st).1
    (cycle tr net st).2.1 _ hcy
  rcases hsrc with h | ⟨r, hr, h⟩ | ⟨r, ts, hr, hts, h⟩ | ⟨hws, h⟩ | ⟨hw0, h⟩
  · rcases get_api_answer_error_shape net _ h with ⟨m, hm⟩ | ⟨m, hm⟩ <;>
      exact Exc.noConfusion hm
  · rcases pyIndex_error_shape r "current_date" _ h with hk | ⟨m, hm⟩
    · injection hk with hk
      exact absurd hk (by decide)
    · exact Exc.noConfusion hm
  · obtain ⟨kvs, hrd, hl⟩ := pyIndex_ok_dict r "current_date" ts hts
    subst hrd
    rcases check_response_error_shape kvs ts _ hl h with hk | ⟨m, hm⟩
    · injection hk with hk
      exact absurd hk (by decide)
    · exact Exc.noConfusion hm
  · rcases pyIndexNat_error_shape hws 0 _ h with hk | ⟨m, hm⟩ | ⟨m, hm⟩
    · injection hk with hk
      exact absurd hk (by decide)
    · exact Exc.noConfusion hm
    · exact Exc.noConfusion hm
  · rcases parse_status_keyError_shape hw0 _ h with hk | hk | ⟨s, hk⟩
    · exact absurd hk (by decide)
    · exact absurd hk (by decide)
    · exact unknown_status_text_ne s hk.symm

/-- C10 witness: the concrete response without `current_date` fails at the
cursor read, not in the validator's `current_date` branch. -/
theorem C10_witness :
    (cycle transportOk netNoHomeworks stZero).2.2 ≠
      some (Exc.keyError "Ответ API не содержит ключа 'current_date'") :=
  C10_validator_cd_branch_unreachable transportOk netNoHomeworks stZero
